import Mathlib

/-!
Shallow embedding of the goify HTTP router core (router.go, response.go,
context.go, middleware): the flat route table of `Router`, the `RouteNode`
trie with its backtracking search, path splitting, parameter binding, and
the continuation-passing middleware chains of `Router` and `RouterGroup`.

Go maps `map[string]T` are modelled as association lists with
insert-or-overwrite and delete; handlers are identified by natural-number
labels (only handler identity is observable in the claims).
-/

namespace Goify

/-- Handler identity: stands in for Go's `HandlerFunc` values. -/
abbrev Handler := Nat

/-- Parameter bindings, modelling Go's `map[string]string`. -/
abbrev Params := List (String × String)

/-- Lookup in a Go-map modelled as an association list (`m[k]` presence). -/
def assocLookup {α : Type} : List (String × α) → String → Option α
  | [], _ => none
  | (k, v) :: rest, key => if k = key then some v else assocLookup rest key

/-- Insert-or-overwrite, modelling Go's `m[k] = v`. -/
def assocInsert {α : Type} : List (String × α) → String → α → List (String × α)
  | [], key, v => [(key, v)]
  | (k, w) :: rest, key, v =>
    if k = key then (k, v) :: rest else (k, w) :: assocInsert rest key v

/-- Key removal, modelling Go's `delete(m, k)`. -/
def assocErase {α : Type} : List (String × α) → String → List (String × α)
  | [], _ => []
  | (k, w) :: rest, key =>
    if k = key then assocErase rest key else (k, w) :: assocErase rest key

/-- Accumulator step for splitting a character list at every slash;
models `strings.Split(s, "/")`. -/
def splitSegsAux : List Char → List Char → List String
  | [], acc => [String.mk acc.reverse]
  | c :: cs, acc =>
    if c = '/' then String.mk acc.reverse :: splitSegsAux cs []
    else splitSegsAux cs (c :: acc)

/-- Models Go's `strings.Split(s, "/")`. -/
def splitSlash (s : String) : List String := splitSegsAux s.data []

/-- Models Go's `strings.Trim(s, "/")`: strip all leading and trailing slashes. -/
def trimSlashes (s : String) : String :=
  String.mk (((s.data.dropWhile (· = '/')).reverse.dropWhile (· = '/')).reverse)

/-- Models `splitPath` (response.go): `/` and the empty trim result become the
single empty-segment sentinel, otherwise split the trimmed path on slashes. -/
def splitPath (path : String) : List String :=
  if path = "/" then [""]
  else
    let p := trimSlashes path
    if p = "" then [""] else splitSlash p

/-- Tests whether the first character of a segment is `c`; models
`strings.HasPrefix(segment, ":")` / `strings.HasPrefix(segment, "*")`. -/
def segStartsWith (s : String) (c : Char) : Bool :=
  match s.data with
  | [] => false
  | d :: _ => d = c

/-- Models `segment[1:]` for segments whose first character is an ASCII marker. -/
def segTail (s : String) : String := String.mk (s.data.drop 1)

/-- Models `strings.Join(segments, "/")`. -/
def joinSlash : List String → String
  | [] => ""
  | [s] => s
  | s :: rest => s ++ "/" ++ joinSlash rest

/-- The trie node of response.go: literal children live in the `children` map
under their own segment text, the single parameter child under key
`"*param*"`, the single wildcard child under key `"*wild*"`, exactly as the
Go code stores them. -/
inductive RouteNode : Type where
  | mk (path : String) (handlers : List (String × Handler))
      (children : List (String × RouteNode)) (paramKey : String)
      ( isParam : Bool) ( isWild : Bool) : RouteNode

/-- Field accessor for `RouteNode.path`. -/
def RouteNode.path : RouteNode → String
  | .mk p _ _ _ _ _ => p

/-- Field accessor for `RouteNode.handlers`. -/
def RouteNode.handlers : RouteNode → List (String × Handler)
  | .mk _ hs _ _ _ _ => hs

/-- Field accessor for `RouteNode.children`. -/
def RouteNode.children : RouteNode → List (String × RouteNode)
  | .mk _ _ cs _ _ _ => cs

/-- Field accessor for `RouteNode.paramKey`. -/
def RouteNode.paramKey : RouteNode → String
  | .mk _ _ _ pk _ _ => pk

/-- Models `NewRouteNode()`: empty handler and child maps, zero-valued fields. -/
def NewRouteNode : RouteNode := .mk "" [] [] "" false false

/-- Models the tail of `RouteNode.addRoute`: `current.handlers[method] = handler;
current.path = path` applied to a node. -/
def RouteNode.setHandler : RouteNode → String → String → Handler → RouteNode
  | .mk _ hs cs pk ip iw, path, method, h => .mk path (assocInsert hs method h) cs pk ip iw

/-- The segment loop of `RouteNode.addRoute` (response.go): empty segments are
skipped; a `:`-segment descends into (creating if absent) the single
parameter child under `"*param*"`; a `*`-segment descends into the single
wildcard child under `"*wild*"` and stops (Go's `break`), so the handler is
installed right there; any other segment descends into the literal child of
that name. At the end of the segments the handler and pattern path are
installed on the current node. -/
def RouteNode.addRouteSegs (node : RouteNode) (segs : List String) (path method : String) (h : Handler) : RouteNode :=
  match node, segs with
  | node, [] => node.setHandler path method h
  | .mk p hs cs pk ip iw, seg :: rest =>
    if seg = "" then RouteNode.addRouteSegs (.mk p hs cs pk ip iw) rest path method h
    else if segStartsWith seg ':' then
      let child :=
        match assocLookup cs "*param*" with
        | some c => c
        | none => .mk "" [] [] (segTail seg) true false
      .mk p hs (assocInsert cs "*param*" (child.addRouteSegs rest path method h)) pk ip iw
    else if segStartsWith seg '*' then
      let child :=
        match assocLookup cs "*wild*" with
        | some c => c
        | none => .mk "" [] [] (segTail seg) false true
      .mk p hs (assocInsert cs "*wild*" (child.setHandler path method h)) pk ip iw
    else
      let child :=
        match assocLookup cs seg with
        | some c => c
        | none => .mk "" [] [] "" false false
      .mk p hs (assocInsert cs seg (child.addRouteSegs rest path method h)) pk ip iw

/-- Models `RouteNode.addRoute(path, method, handler)`. -/
def RouteNode.addRoute (node : RouteNode) (path method : String) (h : Handler) : RouteNode :=
  node.addRouteSegs (splitPath path) path method h

/-- Models `RouteNode.searchRoute` (response.go): depth-first search with the
shared mutable `params` map threaded through explicitly. Branch order at a
node: skip empty segment; literal child of the segment's text; parameter
child (bind the raw segment, recurse, delete the key on failure); wildcard
child (bind the joined remaining segments, succeed only if that node has a
handler for the method). All map mutations other than the parameter-key
delete persist across failed branches, as they do on Go's shared map. -/
def RouteNode.searchRoute (node : RouteNode) (segs : List String) (method : String) (params : Params) : Option Handler × Params :=
  match segs with
  | [] => (assocLookup node.handlers method, params)
  | seg :: rest =>
    if seg = "" then node.searchRoute rest method params
    else
      let litRes : Option Handler × Params :=
        match assocLookup node.children seg with
        | some child => child.searchRoute rest method params
        | none => (none, params)
      match litRes with
      | (some h, ps) => (some h, ps)
      | (none, ps1) =>
        let parRes : Option Handler × Params :=
          match assocLookup node.children "*param*" with
          | some pnode =>
            let ps' := assocInsert ps1 pnode.paramKey seg
            match pnode.searchRoute rest method ps' with
            | (some h, ps2) => (some h, ps2)
            | (none, ps2) => (none, assocErase ps2 pnode.paramKey)
          | none => (none, ps1)
        match parRes with
        | (some h, ps) => (some h, ps)
        | (none, ps3) =>
          match assocLookup node.children "*wild*" with
          | some wnode =>
            let remaining := joinSlash (seg :: rest)
            let ps4 := assocInsert ps3 wnode.paramKey remaining
            match assocLookup wnode.handlers method with
            | some h => (some h, ps4)
            | none => (none, ps4)
          | none => (none, ps3)

/-- Models `RouteNode.findRoute`: split the path, start from a fresh empty
params map, return both the handler (or none) and the final map. -/
def RouteNode.findRoute (node : RouteNode) (path method : String) : Option Handler × Params :=
  node.searchRoute (splitPath path) method []

/-- Hex digit value, as `net/url`'s `unhex` accepts it. -/
def hexVal (c : Char) : Option Nat :=
  if '0' ≤ c ∧ c ≤ '9' then some (c.toNat - '0'.toNat)
  else if 'a' ≤ c ∧ c ≤ 'f' then some (c.toNat - 'a'.toNat + 10)
  else if 'A' ≤ c ∧ c ≤ 'F' then some (c.toNat - 'A'.toNat + 10)
  else none

/-- Character-level model of Go's `url.QueryUnescape`: `%XY` becomes the byte
`16*X+Y`, `+` becomes a space, anything else passes through; a `%` not
followed by two hex digits is an error (`none`). -/
def unescapeChars : List Char → Option (List Char)
  | [] => some []
  | '%' :: a :: b :: rest =>
    match hexVal a, hexVal b with
    | some x, some y => (unescapeChars rest).map (fun cs => Char.ofNat (16 * x + y) :: cs)
    | _, _ => none
  | '%' :: _ => none
  | '+' :: rest => (unescapeChars rest).map (fun cs => ' ' :: cs)
  | c :: rest => (unescapeChars rest).map (fun cs => c :: cs)

/-- Models `url.QueryUnescape`; `none` is Go's error return, in which case the
string result Go hands back alongside the error is `""`. -/
def queryUnescape (s : String) : Option String :=
  (unescapeChars s.data).map String.mk

/-- The request-scoped context, reduced to the field the routing claims
observe: the parameter bindings map (`Context.params` in context.go). -/
structure Context where
  params : Params
  deriving DecidableEq

/-- Models `Context.Param` (context.go): a Go map read, returning the zero
value `""` when the key is absent. -/
def Context.Param (c : Context) (key : String) : String :=
  (assocLookup c.params key).getD ""

/-- Models `Context.setParam` (context.go): `decoded, _ := url.QueryUnescape(value)`
ignores the error, so on malformed input the stored value is the empty
string that `QueryUnescape` returns together with its error. -/
def Context.setParam (c : Context) (key value : String) : Context :=
  { c with params := assocInsert c.params key ((queryUnescape value).getD "") }

/-- Trace denotation of a middleware: it receives the "proceed" continuation
(whose trace is everything downstream) and yields its own full trace. -/
def MwDen : Type := (Unit → List String) → List String

/-- A middleware that emits `b`, proceeds, then emits `a` after everything
downstream has completed. -/
def wrapMw (b a : String) : MwDen := fun proceed => b :: (proceed () ++ [a])

/-- The continuation-passing chain engine shared verbatim by
`Router.executeMiddleware` and `RouterGroup.executeGroupMiddleware`: the
index cursor reaching the end of the slice runs the terminal handler,
otherwise middleware `i` is invoked with a `next` that continues at `i+1`. -/
def runChain (chain : List MwDen) (handler : Unit → List String) : List String :=
  match chain with
  | [] => handler ()
  | m :: rest => m (fun _ => runChain rest handler)

/-- The flat route store of `Router` (router.go): `map[method]map[path]handler`. -/
abbrev RoutesMap := List (String × List (String × Handler))

/-- The `Router` struct (router.go): flat routes plus the root middleware
slice (the `server` field plays no part in routing). -/
structure Router where
  routes : RoutesMap
  middleware : List MwDen

/-- Models `New()`. -/
def Router.new : Router := ⟨[], []⟩

/-- Trailing-slash normalization shared by `Router.addRoute` and
`Router.ServeHTTP`: strip one trailing `/` when the path is longer than one
character. -/
def routerNormalizePath (path : String) : String :=
  if decide (1 < path.data.length) && (path.data.getLast? = some '/' : Bool) then
    String.mk path.data.dropLast
  else path

/-- Models `Router.addRoute` (router.go): normalize the trailing slash, then
store the handler in the flat table under the raw pattern text — the pattern
is never inspected for `:` or `*` markers and no trie is touched (the
`Router` struct owns none). -/
def Router.addRoute (rt : Router) (method path : String) (h : Handler) : Router :=
  let p := routerNormalizePath path
  let m := (assocLookup rt.routes method).getD []
  { rt with routes := assocInsert rt.routes method (assocInsert m p h) }

/-- The handler-resolution half of `Router.ServeHTTP` (router.go): normalize
the trailing slash, consult only the flat routes map, and on a hit build the
request context with `params := make(map[string]string)` — i.e. empty; a
miss is `http.NotFound`, modelled as `none`. -/
def Router.serveHTTP (rt : Router) (method path : String) : Option (Handler × Context) :=
  match assocLookup rt.routes method with
  | some methodRoutes =>
    match assocLookup methodRoutes (routerNormalizePath path) with
    | some h => some (h, ⟨[]⟩)
    | none => none
  | none => none

/-- Models `Router.executeMiddleware`: run the root chain down to the handler. -/
def Router.executeMiddleware (rt : Router) (handler : Unit → List String) : List String :=
  runChain rt.middleware handler

/-- The `RouterGroup` struct (router.go), without the back-pointer to the
router: a path prefix and the group's own middleware slice. -/
structure RouterGroup where
  prefixStr : String
  middleware : List MwDen

/-- Models `RouterGroup.Group`: the child's prefix concatenates the parent's,
and its middleware is `append([]MiddlewareFunc{}, rg.middleware...)` — a
fresh copy of the parent's slice at creation time. -/
def RouterGroup.group (rg : RouterGroup) (p : String) : RouterGroup :=
  ⟨rg.prefixStr ++ p, [] ++ rg.middleware⟩

/-- Models `RouterGroup.executeGroupMiddleware`: the same index-cursor chain
engine, over the group's own middleware slice. -/
def RouterGroup.executeGroupMiddleware (rg : RouterGroup) (handler : Unit → List String) : List String :=
  runChain rg.middleware handler

/-- Models the `wrappedHandler` closure built in `RouterGroup.addRoute`: the
handler registered with the root router runs the group chain around the
original handler. -/
def RouterGroup.wrapHandler (rg : RouterGroup) (handler : Unit → List String) : Unit → List String :=
  fun _ => rg.executeGroupMiddleware handler

/-- Heap of live `RouterGroup` values, indexed by position: Go groups are
mutated through pointers, so mutation claims are stated against this store. -/
abbrev GroupStore := List RouterGroup

/-- Store-level `Group` call on group `gid`: appends the freshly created child
and returns its index. -/
def storeGroup (st : GroupStore) (gid : Nat) (p : String) : GroupStore × Nat :=
  match st[gid]? with
  | some rg => (st ++ [rg.group p], st.length)
  | none => (st, st.length)

/-- Store-level `RouterGroup.Use` on group `gid`: appends to that group's own
middleware slice only. -/
def storeUse (st : GroupStore) (gid : Nat) (mws : List MwDen) : GroupStore :=
  match st[gid]? with
  | some rg => st.set gid ⟨rg.prefixStr, rg.middleware ++ mws⟩
  | none => st

/-! Concrete route tries used by the claim theorems. -/

/-- Trie with `/a/:x` registered for GET and `/a/b` registered for POST. -/
def trieBacktrack : RouteNode :=
  (NewRouteNode.addRoute "/a/:x" "GET" 1).addRoute "/a/b" "POST" 2

/-- Trie with literal `/users/admin` and parameter `/users/:id`, both for GET. -/
def triePrecedence : RouteNode :=
  (NewRouteNode.addRoute "/users/admin" "GET" 1).addRoute "/users/:id" "GET" 2

/-- Trie with the single parameter route `/u/:id` for GET. -/
def trieParamRoute : RouteNode := NewRouteNode.addRoute "/u/:id" "GET" 1

/-- Trie with the single wildcard route `/files/*rest` for GET. -/
def trieWildcard : RouteNode := NewRouteNode.addRoute "/files/*rest" "GET" 1

/-- Trie with `/:x/*w` registered only for POST: a GET lookup enters the
parameter branch, leaks the wildcard binding below it, and fails. -/
def trieParamWild : RouteNode := NewRouteNode.addRoute "/:x/*w" "POST" 9

/-- Trie with the single wildcard route `/*rest` registered only for POST. -/
def trieWildOnly : RouteNode := NewRouteNode.addRoute "/*rest" "POST" 3

/-- Trie with `/a/*w` (POST only) and `/:x/b` (GET): a GET lookup of `/a/b`
fails through the wildcard under the literal `a`, leaking its binding, then
succeeds through the parameter alternative. -/
def trieStaleLeak : RouteNode :=
  (NewRouteNode.addRoute "/a/*w" "POST" 1).addRoute "/:x/b" "GET" 2

/-! Helper lemmas about the association-list map operations. -/

/-- Lookup of a key right after deleting it yields nothing. -/
theorem assocLookup_erase_self {α : Type} (ps : List (String × α)) (k : String) :
    assocLookup (assocErase ps k) k = none := by
  induction ps with
  | nil => rfl
  | cons hd tl ih =>
    obtain ⟨k', v'⟩ := hd
    by_cases hk : k' = k
    · simpa [assocErase, hk] using ih
    · simp [assocErase, assocLookup, hk, ih]

/-- Deleting one key leaves lookups of any other key unchanged. -/
theorem assocLookup_erase_ne {α : Type} (ps : List (String × α)) (k k' : String) (h : k ≠ k') :
    assocLookup (assocErase ps k) k' = assocLookup ps k' := by
  induction ps with
  | nil => rfl
  | cons hd tl ih =>
    obtain ⟨k0, v0⟩ := hd
    by_cases hk : k0 = k
    · subst hk
      simp [assocErase, assocLookup, h, ih]
    · simp [assocErase, assocLookup, hk, ih]

/-- Lookup of a key right after inserting it yields the inserted value. -/
theorem assocLookup_insert_self {α : Type} (ps : List (String × α)) (k : String) (v : α) :
    assocLookup (assocInsert ps k v) k = some v := by
  induction ps with
  | nil => simp [assocInsert, assocLookup]
  | cons hd tl ih =>
    obtain ⟨k0, v0⟩ := hd
    by_cases hk : k0 = k
    · simp [assocInsert, assocLookup, hk]
    · simp [assocInsert, assocLookup, hk, ih]

/-- Inserting one key leaves lookups of any other key unchanged. -/
theorem assocLookup_insert_ne {α : Type} (ps : List (String × α)) (k k' : String) (v : α) (h : k ≠ k') :
    assocLookup (assocInsert ps k v) k' = assocLookup ps k' := by
  induction ps with
  | nil => simp [assocInsert, assocLookup, h]
  | cons hd tl ih =>
    obtain ⟨k0, v0⟩ := hd
    by_cases hk : k0 = k
    · subst hk
      simp [assocInsert, assocLookup, h]
    · simp [assocInsert, assocLookup, hk, ih]

/-! Claim theorems. -/

/-- Claim C1, evaluated at the failing input: registering the parameter
pattern `/users/:id` through the Router stores it in the flat (method, path)
table under its raw text — the `Router` owns no trie and `Router.addRoute`
never inspects the pattern for `:` or `*` — so the documented request
`GET /users/42` resolves to nothing, while only the literal text
`/users/:id` itself hits the stored handler. -/
theorem c1_param_pattern_in_flat_table :
    (Router.addRoute Router.new "GET" "/users/:id" 5).routes = [("GET", [("/users/:id", 5)])] ∧
    Router.serveHTTP (Router.addRoute Router.new "GET" "/users/:id" 5) "GET" "/users/42" = none ∧
    Router.serveHTTP (Router.addRoute Router.new "GET" "/users/:id" 5) "GET" "/users/:id" = some (5, ⟨[]⟩) := by
  refine ⟨rfl, rfl, rfl⟩

/-- Claim C2: any request dispatched through `Router.ServeHTTP` reaches its
handler with a context whose parameter-bindings map is empty, so
`Context.Param` returns `""` for every key: ServeHTTP resolves handlers only
from the flat routes map and builds the context with a fresh empty params
map, never calling `findRoute` or `setParam`. -/
theorem c2_serveHTTP_context_params_empty (rt : Router) (method path : String) (h : Handler) (c : Context)
    (hres : Router.serveHTTP rt method path = some (h, c)) :
    c.params = [] ∧ ∀ key, c.Param key = "" := by
  have hc : c = ⟨[]⟩ := by
    unfold Router.serveHTTP at hres
    split at hres
    · split at hres
      · exact ((Prod.mk.injEq _ _ _ _).mp (Option.some.inj hres)).2.symm
      · exact absurd hres (by simp)
    · exact absurd hres (by simp)
  subst hc
  exact ⟨rfl, fun _ => rfl⟩

/-- Witness for C2 at a concrete router and request. -/
theorem c2_serveHTTP_context_params_empty_witness :
    Router.serveHTTP ⟨[("GET", [("/ping", 7)])], []⟩ "GET" "/ping" = some (7, ⟨[]⟩) ∧
    ((⟨[]⟩ : Context).params = [] ∧ ∀ key, Context.Param ⟨[]⟩ key = "") :=
  ⟨rfl, c2_serveHTTP_context_params_empty ⟨[("GET", [("/ping", 7)])], []⟩ "GET" "/ping" 7 ⟨[]⟩ rfl⟩

/-- Claim C3: with `/a/:x` registered only for GET and `/a/b` only for POST,
a GET lookup of `/a/b` backtracks past the structurally matching literal
child `b` (whose node has no GET handler) and succeeds through the parameter
route, binding `x = "b"`. -/
theorem c3_backtracks_past_literal_on_method_mismatch :
    trieBacktrack.findRoute "/a/b" "GET" = (some 1, [("x", "b")]) := by decide

/-- Claim C4: with literal `/users/admin` and parameter `/users/:id` both
registered for GET, looking up `/users/admin` returns the literal pattern's
handler and binds no parameter. -/
theorem c4_literal_beats_param :
    triePrecedence.findRoute "/users/admin" "GET" = (some 1, []) := by decide

/-- Claim C5, counterexample: for the parameter route `/u/:id`, looking up
`/u/a%20b` binds the raw segment `a%20b`, although its percent-decoding is
well-formed and yields the distinct string `a b` — lookup never decodes. -/
theorem c5_counterexample_binding_not_decoded :
    trieParamRoute.findRoute "/u/a%20b" "GET" = (some 1, [("id", "a%20b")]) ∧
    queryUnescape "a%20b" = some "a b" ∧
    ("a%20b" : String) ≠ "a b" := by decide

/-- Claim C5 as amended: during trie lookup the value bound to a parameter
name is the raw matched segment text, with no percent-decoding applied at
all (well-formed or not): `searchRoute` writes the segment straight into the
bindings map, and `Context.setParam` — the only decoding site — is never
called during lookup. Stated for any non-empty segment other than the
reserved child key `"*param*"` against the `/u/:id` trie. -/
theorem c5_amended_raw_segment_bound (seg : String) (h1 : seg ≠ "") (h2 : seg ≠ "*param*") :
    trieParamRoute.searchRoute ["u", seg] "GET" [] = (some 1, [("id", seg)]) := by
  have ht : trieParamRoute
      = RouteNode.mk "" [] [("u", RouteNode.mk "" []
          [("*param*", RouteNode.mk "/u/:id" [("GET", 1)] [] "id" true false)] "" false false)]
          "" false false := rfl
  rw [ht]
  simp [RouteNode.searchRoute, RouteNode.children, RouteNode.handlers, RouteNode.paramKey,
    assocLookup, assocInsert, h1, Ne.symm h2]

/-- Witness for the amended C5 at the concrete segment `a%20b`: the bound
value is the raw text, not its percent-decoding. -/
theorem c5_amended_raw_segment_bound_witness :
    ("a%20b" : String) ≠ "" ∧ ("a%20b" : String) ≠ "*param*" ∧
    trieParamRoute.searchRoute ["u", "a%20b"] "GET" [] = (some 1, [("id", "a%20b")]) :=
  ⟨by decide, by decide, c5_amended_raw_segment_bound "a%20b" (by decide) (by decide)⟩

/-- Claim C6: the wildcard route `/files/*rest` matches `/files/a/b/c.txt`
and the returned bindings map is exactly `{rest ↦ "a/b/c.txt"}`, the
unconsumed segments joined by `/`. -/
theorem c6_wildcard_absorbs_remaining_segments :
    trieWildcard.findRoute "/files/a/b/c.txt" "GET" = (some 1, [("rest", "a/b/c.txt")]) := by decide

/-- Claim C7, counterexample: in the trie holding only `/:x/*w` for POST, a
GET lookup of `/s/t` enters the parameter branch with an empty bindings map,
fails, and leaves the map at `{w ↦ "t"}` rather than restoring it to the
empty state it had before the branch was entered. -/
theorem c7_counterexample_map_not_restored :
    trieParamWild.findRoute "/s/t" "GET" = (none, [("w", "t")]) ∧
    ([("w", "t")] : Params) ≠ [] := by decide

/-- Claim C7 as amended: when the recursion under a parameter child fails,
only that parameter's own key is deleted from the bindings map before the
next alternative is tried — the key is removed outright even if it was bound
before the branch, and bindings made deeper inside the failed branch for
other keys (here the leaked wildcard binding `w`) persist, so the map is not
in general restored to its pre-branch state. Stated against the `/:x/*w`
(POST-only) trie for a GET lookup, from an arbitrary starting map `p`. -/
theorem c7_amended_param_key_deleted_not_restored (s t : String) (p : Params)
    (hs1 : s ≠ "") (hs2 : s ≠ "*param*") (ht : t ≠ "") :
    trieParamWild.searchRoute [s, t] "GET" p
      = (none, assocErase (assocInsert (assocInsert p "x" s) "w" t) "x") ∧
    assocLookup (assocErase (assocInsert (assocInsert p "x" s) "w" t) "x") "x" = none ∧
    assocLookup (assocErase (assocInsert (assocInsert p "x" s) "w" t) "x") "w" = some t := by
  refine ⟨?_, assocLookup_erase_self _ _, ?_⟩
  · have htr : trieParamWild
        = RouteNode.mk "" [] [("*param*", RouteNode.mk "" []
            [("*wild*", RouteNode.mk "/:x/*w" [("POST", 9)] [] "w" false true)] "x" true false)]
            "" false false := rfl
    rw [htr]
    by_cases hw : ("*wild*" : String) = t
    · subst hw
      simp [RouteNode.searchRoute, RouteNode.children, RouteNode.handlers, RouteNode.paramKey,
        assocLookup, joinSlash, hs1, Ne.symm hs2]
    · simp [RouteNode.searchRoute, RouteNode.children, RouteNode.handlers, RouteNode.paramKey,
        assocLookup, joinSlash, hs1, Ne.symm hs2, ht, hw]
  · rw [assocLookup_erase_ne _ _ _ (by decide), assocLookup_insert_self]

/-- Witness for the amended C7 at concrete segments and a starting map that
already binds `x`: the parameter key is gone afterwards (not restored to
`"old"`) while the leaked wildcard binding survives. -/
theorem c7_amended_param_key_deleted_not_restored_witness :
    ("s" : String) ≠ "" ∧ ("s" : String) ≠ "*param*" ∧ ("t" : String) ≠ "" ∧
    (trieParamWild.searchRoute ["s", "t"] "GET" [("x", "old")]
        = (none, assocErase (assocInsert (assocInsert [("x", "old")] "x" "s") "w" "t") "x") ∧
      assocLookup (assocErase (assocInsert (assocInsert [("x", "old")] "x" "s") "w" "t") "x") "x" = none ∧
      assocLookup (assocErase (assocInsert (assocInsert [("x", "old")] "x" "s") "w" "t") "x") "w" = some "t") :=
  ⟨by decide, by decide, by decide,
    c7_amended_param_key_deleted_not_restored "s" "t" [("x", "old")] (by decide) (by decide) (by decide)⟩

/-- Claim C8: a failed wildcard attempt leaks its binding: `findRoute` can
return no handler together with a non-empty bindings map (trie `/*rest`,
POST only, looked up with GET), and a lookup that later succeeds through a
different child can return bindings still holding the stale wildcard entry
(tries `/a/*w` POST and `/:x/b` GET, lookup `/a/b` with GET). -/
theorem c8_failed_wildcard_leaks_binding :
    trieWildOnly.findRoute "/a" "GET" = (none, [("rest", "a")]) ∧
    trieStaleLeak.findRoute "/a/b" "GET" = (some 2, [("w", "b"), ("x", "a")]) := by decide

/-- Claim C9: with root middleware `[L, R]`, group middleware `[G]` and
handler `H`, dispatch through the root chain around the group-wrapped
handler produces the trace L-before, R-before, G-before, H, G-after,
R-after, L-after — each interceptor's post-proceed code runs only after
everything downstream completes. -/
theorem c9_middleware_invocation_order :
    Router.executeMiddleware ⟨[], [wrapMw "L-before" "L-after", wrapMw "R-before" "R-after"]⟩
      (RouterGroup.wrapHandler ⟨"", [wrapMw "G-before" "G-after"]⟩ (fun _ => ["H"]))
      = ["L-before", "R-before", "G-before", "H", "G-after", "R-after", "L-after"] := rfl

/-- Claim C10: creating a child group snapshots the parent's middleware: the
child's sequence is a copy of the parent's at creation time, and a
subsequent `Use` on the parent — which rewrites only the parent's own store
entry — leaves the already-created child's entry, and hence the chain run
for the child's routes, exactly at that snapshot. -/
theorem c10_child_group_snapshots_parent_middleware (st : GroupStore) (g1 : Nat) (gs1 : RouterGroup)
    (p : String) (mws : List MwDen) (hg : st[g1]? = some gs1) :
    (storeGroup st g1 p).1 = st ++ [gs1.group p] ∧
    (gs1.group p).middleware = gs1.middleware ∧
    (storeUse (storeGroup st g1 p).1 g1 mws)[(storeGroup st g1 p).2]? = some (gs1.group p) := by
  have hlen : g1 < st.length := (List.getElem?_eq_some.mp hg).1
  have h1 : storeGroup st g1 p = (st ++ [gs1.group p], st.length) := by
    unfold storeGroup
    rw [hg]
  have happ : (st ++ [gs1.group p])[g1]? = some gs1 := by
    rw [List.getElem?_append, if_pos hlen, hg]
  refine ⟨by rw [h1], rfl, ?_⟩
  rw [h1]
  show (storeUse (st ++ [gs1.group p]) g1 mws)[st.length]? = some (gs1.group p)
  unfold storeUse
  rw [happ]
  show ((st ++ [gs1.group p]).set g1 ⟨gs1.prefixStr, gs1.middleware ++ mws⟩)[st.length]?
    = some (gs1.group p)
  rw [List.getElem?_set_ne (Nat.ne_of_lt hlen)]
  exact List.getElem?_concat_length _ _

/-- Witness for C10 on a one-group store: create a child of group 0, then
`Use` more middleware on group 0; the child's entry still holds the
creation-time snapshot. -/
theorem c10_child_group_snapshots_parent_middleware_witness :
    ([⟨"/api", [wrapMw "P-before" "P-after"]⟩] : GroupStore)[0]?
        = some ⟨"/api", [wrapMw "P-before" "P-after"]⟩ ∧
    ((storeGroup [⟨"/api", [wrapMw "P-before" "P-after"]⟩] 0 "/v2").1
        = [⟨"/api", [wrapMw "P-before" "P-after"]⟩]
          ++ [RouterGroup.group ⟨"/api", [wrapMw "P-before" "P-after"]⟩ "/v2"] ∧
      (RouterGroup.group ⟨"/api", [wrapMw "P-before" "P-after"]⟩ "/v2").middleware
        = (⟨"/api", [wrapMw "P-before" "P-after"]⟩ : RouterGroup).middleware ∧
      (storeUse (storeGroup [⟨"/api", [wrapMw "P-before" "P-after"]⟩] 0 "/v2").1 0 [wrapMw "B" "A"])[(storeGroup [⟨"/api", [wrapMw "P-before" "P-after"]⟩] 0 "/v2").2]?
        = some (RouterGroup.group ⟨"/api", [wrapMw "P-before" "P-after"]⟩ "/v2")) :=
  ⟨rfl, c10_child_group_snapshots_parent_middleware
    [⟨"/api", [wrapMw "P-before" "P-after"]⟩] 0 ⟨"/api", [wrapMw "P-before" "P-after"]⟩
    "/v2" [wrapMw "B" "A"] rfl⟩

end Goify
